import Mathlib

/-!
Verification of the HomeStream range-request video streaming handler
(`app.get('/stream/:filename', ...)` in the server source).

The handler is embedded shallowly:

* the filesystem is an association list from resolved path segments to file
  contents (lists of byte values);
* `path.join(videosDir, filename)` is modelled by splitting the filename on
  the separator and normalizing `.` / `..` / empty segments;
* JavaScript `String.prototype.replace(/bytes=/, '')` (first occurrence),
  `String.prototype.split('-')` and `parseInt(s, 10)` are modelled on
  `List Char`;
* `fs.createReadStream(path, {start, end})` follows Node's documented
  validation: `start` and `end` must be integers with `0 <= start`,
  `0 <= end` and `start <= end`, otherwise the constructor throws
  (`ERR_OUT_OF_RANGE`) before any data is read; on success the stream
  yields the bytes from offset `start` to `min(end, size-1)` inclusive;
* a request outcome is either a written response (status, headers, body)
  or a thrown exception (the handler raised before `res.writeHead`).
-/

namespace HomeStream

/-- Byte content of a file: a list of byte values. -/
abbrev FileData := List Nat

/-- The filesystem visible to the server: resolved paths (as segment lists,
relative to the server directory) mapped to file contents. -/
abbrev Fs := List (List String × FileData)

/-- Lookup of a path in the filesystem (`fs.existsSync` + read). -/
def fsLookup : Fs → List String → Option FileData
  | [], _ => none
  | (q, d) :: rest, p => if q = p then some d else fsLookup rest p

/-- The fixed videos directory: `path.join(__dirname, 'media', 'videos')`,
as segments relative to `__dirname`. -/
def videosDirSegs : List String := ["media", "videos"]

/-- Split a character list at every occurrence of a separator character
(JavaScript `String.prototype.split` with a single-character separator:
the result always has at least one element, and empty pieces are kept). -/
def splitOnChar (sep : Char) : List Char → List (List Char)
  | [] => [[]]
  | c :: rest =>
    let r := splitOnChar sep rest
    if c = sep then [] :: r
    else
      match r with
      | h :: t => (c :: h) :: t
      | [] => [[c]]

/-- Segment normalization performed by `path.join`/`path.normalize`:
empty and `.` segments are dropped, `..` removes the preceding segment. -/
def normalizeSegs (segs : List String) : List String :=
  segs.foldl
    (fun acc seg =>
      if seg = "" ∨ seg = "." then acc
      else if seg = ".." then acc.dropLast
      else acc ++ [seg])
    []

/-- `path.join(videosDir, req.params.filename)`: append the filename's
segments to the videos directory and normalize. -/
def resolvePath (filename : String) : List String :=
  normalizeSegs (videosDirSegs ++ (splitOnChar '/' filename.data).map List.asString)

/-- Does `pat` occur at the head of `l`? -/
def startsWith : List Char → List Char → Bool
  | _, [] => true
  | [], _ :: _ => false
  | c :: cs, p :: ps => c = p && startsWith cs ps

/-- JavaScript `s.replace(pat, '')` for a plain-text pattern: remove the
first (leftmost) occurrence of `pat`, leave `s` unchanged if absent. -/
def removeFirst (pat : List Char) : List Char → List Char
  | [] => []
  | c :: cs =>
    if startsWith (c :: cs) pat then (c :: cs).drop pat.length
    else c :: removeFirst pat cs

/-- Numeric value of a list of decimal digit characters, most significant
first (the accumulator loop of `parseInt`). -/
def digitsToNat (l : List Char) : Nat :=
  l.foldl (fun a c => a * 10 + (c.toNat - 48)) 0

/-- JavaScript `parseInt(s, 10)`: optional sign, then the longest leading
run of decimal digits; `none` models `NaN` (no digits).

The model is exact over unbounded integers, while the real `parseInt`
returns a double and rounds above `Number.MAX_SAFE_INTEGER` (2^53 - 1).
Every theorem below either constrains the parsed values to at most
`MAX_SAFE_INTEGER` (where doubles are exact) or only uses that the parsed
value exceeds that bound (which rounding preserves, since rounding a
decimal numeral > 2^53 - 1 to the nearest double keeps it > 2^53 - 1),
so the idealization is never load-bearing. -/
def parseIntJS (l : List Char) : Option Int :=
  match l with
  | [] => none
  | c :: rest =>
    if c = '-' then
      let ds := rest.takeWhile Char.isDigit
      if ds = [] then none else some (-(digitsToNat ds : Int))
    else if c = '+' then
      let ds := rest.takeWhile Char.isDigit
      if ds = [] then none else some ((digitsToNat ds : Int))
    else
      let ds := (c :: rest).takeWhile Char.isDigit
      if ds = [] then none else some ((digitsToNat ds : Int))

/-- An HTTP response written by the handler: status, the headers the
handler sets (absent headers are `none`), the binary body, and the JSON
error body used on the 404 path. -/
structure Response where
  status : Nat
  contentRange : Option String
  acceptRanges : Option String
  contentLength : Option Int
  contentType : Option String
  body : List Nat
  jsonError : Option String
  deriving Repr, DecidableEq

/-- Outcome of one handler invocation: either a response was written, or
the handler threw synchronously before writing any status
(`fs.createReadStream` raising `ERR_OUT_OF_RANGE` on invalid options). -/
inductive Outcome where
  | success (r : Response)
  | thrown
  deriving Repr, DecidableEq

/-- Outcome together with the number of read streams opened over the file
during the request. -/
structure HandlerResult where
  outcome : Outcome
  streamsOpened : Nat
  deriving Repr, DecidableEq

/-- The 404 response: `res.status(404).json({ error: 'Video not found' })`. -/
def notFoundResponse : Response :=
  { status := 404, contentRange := none, acceptRanges := none,
    contentLength := none, contentType := none, body := [],
    jsonError := some "Video not found" }

/-- `Number.MAX_SAFE_INTEGER` (2^53 - 1): the default upper bound of
Node's `validateInteger`, which `fs.ReadStream` applies to the `start`
and `end` options (values above it throw `ERR_OUT_OF_RANGE`, exactly
like `NaN` or negative values). -/
def maxSafeInteger : Int := 9007199254740991

/-- Byte window read by `fs.createReadStream(path, {start, end})` for valid
options `0 ≤ s ≤ e`: offsets `s` to `min(e, size-1)` inclusive. -/
def fileSlice (data : FileData) (s e : Int) : FileData :=
  (data.drop s.toNat).take (e.toNat - s.toNat + 1)

/-- The `GET /stream/:filename` handler.

Source (server file, video streaming section):
```
const videoPath = path.join(videosDir, req.params.filename);
if (!fs.existsSync(videoPath)) {
  return res.status(404).json(\x7b error: 'Video not found' \x7d);
}
const stat = fs.statSync(videoPath);
const fileSize = stat.size;
const range = req.headers.range;
if (range) {
  const parts = range.replace(/bytes=/, '').split('-');
  const start = parseInt(parts[0], 10);
  const end = parts[1] ? parseInt(parts[1], 10) : fileSize - 1;
  const chunkSize = end - start + 1;
  const file = fs.createReadStream(videoPath, \x7b start, end \x7d);
  const head = \x7b 'Content-Range': `bytes $\x7bstart\x7d-$\x7bend\x7d/$\x7bfileSize\x7d`,
    'Accept-Ranges': 'bytes', 'Content-Length': chunkSize,
    'Content-Type': 'video/mp4' \x7d;
  res.writeHead(206, head);
  file.pipe(res);
} else {
  const head = \x7b 'Content-Length': fileSize, 'Content-Type': 'video/mp4' \x7d;
  res.writeHead(200, head);
  fs.createReadStream(videoPath).pipe(res);
}
```
`fs.createReadStream` is called before `res.writeHead(206, ...)`, so when
its option validation throws, no status is written and no stream is
opened. The `fs.ReadStream` constructor validates the options with
`validateInteger(start, 'start', 0)` and `validateInteger(end, 'end', 0)`
— both default to `Number.MAX_SAFE_INTEGER` as upper bound — followed by
a `start > end` check, so it throws `ERR_OUT_OF_RANGE` on a non-integer
(`NaN` from a failed `parseInt`), a negative value, a value above
`MAX_SAFE_INTEGER`, or `start > end`. -/
def streamHandler (fs : Fs) (filename : String) (rangeHeader : Option String) :
    HandlerResult :=
  let videoPath := resolvePath filename
  match fsLookup fs videoPath with
  | none => ⟨Outcome.success notFoundResponse, 0⟩
  | some data =>
    let fileSize : Int := data.length
    match rangeHeader with
    | none =>
      ⟨Outcome.success
        { status := 200, contentRange := none, acceptRanges := none,
          contentLength := some fileSize, contentType := some "video/mp4",
          body := data, jsonError := none }, 1⟩
    | some range =>
      let parts := splitOnChar '-' (removeFirst "bytes=".data range.data)
      let startOpt := parseIntJS (parts.getD 0 [])
      let endOpt :=
        if parts.getD 1 [] ≠ [] then parseIntJS (parts.getD 1 [])
        else some (fileSize - 1)
      match startOpt, endOpt with
      | some s, some e =>
        if 0 ≤ s ∧ s ≤ maxSafeInteger ∧ 0 ≤ e ∧ e ≤ maxSafeInteger ∧
            s ≤ e then
          ⟨Outcome.success
            { status := 206,
              contentRange := some ("bytes " ++ toString s ++ "-" ++
                toString e ++ "/" ++ toString fileSize),
              acceptRanges := some "bytes",
              contentLength := some (e - s + 1),
              contentType := some "video/mp4",
              body := fileSlice data s e,
              jsonError := none }, 1⟩
        else ⟨Outcome.thrown, 0⟩
      | _, _ => ⟨Outcome.thrown, 0⟩

/-- The status written by a handler invocation, when one was written. -/
def respStatus : HandlerResult → Option Nat
  | ⟨Outcome.success r, _⟩ => some r.status
  | ⟨Outcome.thrown, _⟩ => none

/-- The body bytes sent by a handler invocation (none when it threw). -/
def respBody : HandlerResult → List Nat
  | ⟨Outcome.success r, _⟩ => r.body
  | ⟨Outcome.thrown, _⟩ => []

/-- `s` is the decimal numeral (digits only, at least one) denoting `n` —
the form `<start>`/`<end>` take inside a `Range: bytes=<start>-<end>`
header. -/
def isNumeral (s : String) (n : Nat) : Prop :=
  s.data ≠ [] ∧ (∀ c ∈ s.data, c.isDigit) ∧ digitsToNat s.data = n

instance (s : String) (n : Nat) : Decidable (isNumeral s n) := by
  unfold isNumeral; infer_instance

/-- A demonstration filesystem: one five-byte video file. -/
def demoData : FileData := [10, 20, 30, 40, 50]

/-- Demo filesystem holding `media/videos/v.mp4` with `demoData`. -/
def demoFs : Fs := [(["media", "videos", "v.mp4"], demoData)]

/-- A 2000-byte file for the sequential-chunk demonstration. -/
def bigData : FileData := List.replicate 2000 7

/-- Filesystem holding the 2000-byte file `media/videos/big.mp4`. -/
def bigFs : Fs := [(["media", "videos", "big.mp4"], bigData)]

/-- Filesystem with a file OUTSIDE the videos directory
(`media/secret.bin`) and nothing inside it. -/
def outsideFs : Fs := [(["media", "secret.bin"], [9, 9, 9])]

/-- The 200 response the handler produces for `demoFs`'s file with no
Range header. -/
def demoOkResponse : Response :=
  { status := 200, contentRange := none, acceptRanges := none,
    contentLength := some 5, contentType := some "video/mp4",
    body := [10, 20, 30, 40, 50], jsonError := none }

/-! ## Parsing lemmas -/

theorem startsWith_append (pat rest : List Char) :
    startsWith (pat ++ rest) pat = true := by
  induction pat with
  | nil => cases rest <;> rfl
  | cons p ps ih => simp [startsWith, ih]

theorem removeFirst_append_of_ne_nil (pat rest : List Char) (h : pat ≠ []) :
    removeFirst pat (pat ++ rest) = rest := by
  cases pat with
  | nil => exact absurd rfl h
  | cons p ps =>
    show removeFirst (p :: ps) (p :: (ps ++ rest)) = rest
    rw [removeFirst, if_pos]
    · exact List.drop_left (p :: ps) rest
    · exact startsWith_append (p :: ps) rest

theorem splitOnChar_not_mem (sep : Char) (l : List Char) (h : sep ∉ l) :
    splitOnChar sep l = [l] := by
  induction l with
  | nil => rfl
  | cons c cs ih =>
    have hc : ¬ c = sep := fun hh => h (hh ▸ List.mem_cons_self c cs)
    have hcs : sep ∉ cs := fun hh => h (List.mem_cons_of_mem c hh)
    simp [splitOnChar, hc, ih hcs]

theorem splitOnChar_append (sep : Char) (l1 l2 : List Char) (h : sep ∉ l1) :
    splitOnChar sep (l1 ++ sep :: l2) = l1 :: splitOnChar sep l2 := by
  induction l1 with
  | nil => simp [splitOnChar]
  | cons c cs ih =>
    have hc : ¬ c = sep := fun hh => h (hh ▸ List.mem_cons_self c cs)
    have hcs : sep ∉ cs := fun hh => h (List.mem_cons_of_mem c hh)
    simp [splitOnChar, hc, ih hcs]

theorem not_dash_mem_of_digits (l : List Char) (h : ∀ c ∈ l, c.isDigit) :
    ('-') ∉ l :=
  fun hm => absurd (h _ hm) (by decide)

theorem parseIntJS_numeral (s : String) (n : Nat) (h : isNumeral s n) :
    parseIntJS s.data = some ((n : Int)) := by
  obtain ⟨hne, hdig, hval⟩ := h
  cases hs : s.data with
  | nil => exact absurd hs hne
  | cons c cs =>
    rw [hs] at hdig hval
    have hc : c.isDigit = true := hdig c (List.mem_cons_self c cs)
    have hcd : ¬ c = '-' := fun hh => absurd (hh ▸ hc) (by decide)
    have hcp : ¬ c = '+' := fun hh => absurd (hh ▸ hc) (by decide)
    have htw : (c :: cs).takeWhile Char.isDigit = c :: cs :=
      List.takeWhile_eq_self_iff.mpr hdig
    simp [parseIntJS, hcd, hcp, htw, hval]

/-! ## Handler computation lemmas -/

/-- Evaluation of the range branch for a header `bytes=<s>-<e>` with both
offsets given as decimal numerals and `s ≤ e` (Node's `createReadStream`
validation passes; note no comparison with the file size is involved). -/
theorem streamHandler_two_numerals (fs : Fs) (filename : String)
    (data : FileData) (sStr eStr : String) (s e : Nat)
    (hf : fsLookup fs (resolvePath filename) = some data)
    (hs : isNumeral sStr s) (he : isNumeral eStr e) (hse : s ≤ e)
    (hemax : e ≤ 9007199254740991) :
    streamHandler fs filename (some ("bytes=" ++ sStr ++ "-" ++ eStr)) =
      ⟨Outcome.success
        { status := 206,
          contentRange := some ("bytes " ++ toString ((s : Int)) ++ "-" ++
            toString ((e : Int)) ++ "/" ++ toString ((data.length : Int))),
          acceptRanges := some "bytes",
          contentLength := some ((e : Int) - (s : Int) + 1),
          contentType := some "video/mp4",
          body := (data.drop s).take (e - s + 1),
          jsonError := none }, 1⟩ := by
  have hdata : ("bytes=" ++ sStr ++ "-" ++ eStr).data =
      "bytes=".data ++ (sStr.data ++ '-' :: eStr.data) := by
    simp [String.data_append]
  have hrm : removeFirst "bytes=".data ("bytes=" ++ sStr ++ "-" ++ eStr).data =
      sStr.data ++ '-' :: eStr.data := by
    rw [hdata]; exact removeFirst_append_of_ne_nil _ _ (by decide)
  have hsplit : splitOnChar '-' (sStr.data ++ '-' :: eStr.data) =
      [sStr.data, eStr.data] := by
    rw [splitOnChar_append _ _ _ (not_dash_mem_of_digits _ hs.2.1),
      splitOnChar_not_mem _ _ (not_dash_mem_of_digits _ he.2.1)]
  have hps : parseIntJS sStr.data = some ((s : Int)) := parseIntJS_numeral _ _ hs
  have hpe : parseIntJS eStr.data = some ((e : Int)) := parseIntJS_numeral _ _ he
  have hemax' : (e : Int) ≤ maxSafeInteger := by
    show (e : Int) ≤ 9007199254740991
    exact_mod_cast hemax
  have hcond : (0 : Int) ≤ (s : Int) ∧ (s : Int) ≤ maxSafeInteger ∧
      (0 : Int) ≤ (e : Int) ∧ (e : Int) ≤ maxSafeInteger ∧
      (s : Int) ≤ (e : Int) := by
    have hse' : (s : Int) ≤ (e : Int) := by exact_mod_cast hse
    exact ⟨by omega, le_trans hse' hemax', by omega, hemax', hse'⟩
  have hsn : (((s : Int)).toNat) = s := Int.toNat_natCast s
  have hen : (((e : Int)).toNat) = e := Int.toNat_natCast e
  simp only [streamHandler, hf, hrm, hsplit, List.getD_cons_zero,
    List.getD_cons_succ, hps, hpe, ne_eq, fileSlice, hsn, hen]
  rw [if_pos he.1]
  simp only [hsn, hen, hcond.1, hcond.2.1, hcond.2.2.1, hcond.2.2.2.1,
    hcond.2.2.2.2, and_self, if_true]

/-- Evaluation of the range branch for an open-ended header `bytes=<s>-`
(`parts[1]` is the empty string, so `end` defaults to `fileSize - 1`). -/
theorem streamHandler_open_range (fs : Fs) (filename : String)
    (data : FileData) (sStr : String) (s : Nat)
    (hf : fsLookup fs (resolvePath filename) = some data)
    (hs : isNumeral sStr s) (hlt : s < data.length)
    (hsz : data.length ≤ 9007199254740991) :
    streamHandler fs filename (some ("bytes=" ++ sStr ++ "-")) =
      ⟨Outcome.success
        { status := 206,
          contentRange := some ("bytes " ++ toString ((s : Int)) ++ "-" ++
            toString ((data.length : Int) - 1) ++ "/" ++
            toString ((data.length : Int))),
          acceptRanges := some "bytes",
          contentLength := some ((data.length : Int) - 1 - (s : Int) + 1),
          contentType := some "video/mp4",
          body := (data.drop s).take (data.length - 1 - s + 1),
          jsonError := none }, 1⟩ := by
  have hdata : ("bytes=" ++ sStr ++ "-").data =
      "bytes=".data ++ (sStr.data ++ '-' :: ([] : List Char)) := by
    simp [String.data_append]
  have hrm : removeFirst "bytes=".data ("bytes=" ++ sStr ++ "-").data =
      sStr.data ++ '-' :: ([] : List Char) := by
    rw [hdata]; exact removeFirst_append_of_ne_nil _ _ (by decide)
  have hsplit : splitOnChar '-' (sStr.data ++ '-' :: ([] : List Char)) =
      [sStr.data, []] := by
    rw [splitOnChar_append _ _ _ (not_dash_mem_of_digits _ hs.2.1)]; rfl
  have hps : parseIntJS sStr.data = some ((s : Int)) := parseIntJS_numeral _ _ hs
  have hl : (s : Int) < (data.length : Int) := by exact_mod_cast hlt
  have hsz' : (data.length : Int) ≤ 9007199254740991 := by exact_mod_cast hsz
  have hcond : (0 : Int) ≤ (s : Int) ∧ (s : Int) ≤ maxSafeInteger ∧
      (0 : Int) ≤ (data.length : Int) - 1 ∧
      (data.length : Int) - 1 ≤ maxSafeInteger ∧
      (s : Int) ≤ (data.length : Int) - 1 := by
    refine ⟨by omega, ?_, by omega, ?_, by omega⟩
    · show (s : Int) ≤ (9007199254740991 : Int)
      omega
    · show (data.length : Int) - 1 ≤ (9007199254740991 : Int)
      omega
  have hsn : (((s : Int)).toNat) = s := Int.toNat_natCast s
  have hen : (((data.length : Int) - 1).toNat) = data.length - 1 := by omega
  simp only [streamHandler, hf, hrm, hsplit, List.getD_cons_zero,
    List.getD_cons_succ, hps, ne_eq, not_true_eq_false, if_false,
    ite_false, fileSlice, hsn, hen]
  simp only [hcond.1, hcond.2.1, hcond.2.2.1, hcond.2.2.2.1, hcond.2.2.2.2,
    and_self, if_true]

/-! ## Claims -/

/-- Claim C1: for a file of size `size` in the videos directory and any
`0 ≤ start ≤ end < size`, a request with header `Range: bytes=<start>-<end>`
returns status 206 with `Content-Length = end-start+1`, `Content-Range =
"bytes <start>-<end>/<size>"`, and a body byte-for-byte identical to the
file slice from offset `start` through offset `end` inclusive (the slice
indeed has `end-start+1` bytes). The hypothesis
`data.length ≤ 9007199254740991` says the file's size is a JavaScript
safe integer — true of every file Node can stat exactly — keeping all
parsed offsets in the range where `parseInt` and `validateInteger` are
exact. -/
theorem C1_valid_range (fs : Fs) (filename : String) (data : FileData)
    (sStr eStr : String) (s e : Nat)
    (hf : fsLookup fs (resolvePath filename) = some data)
    (hs : isNumeral sStr s) (he : isNumeral eStr e)
    (hse : s ≤ e) (hend : e < data.length)
    (hsz : data.length ≤ 9007199254740991) :
    streamHandler fs filename (some ("bytes=" ++ sStr ++ "-" ++ eStr)) =
      ⟨Outcome.success
        { status := 206,
          contentRange := some ("bytes " ++ toString ((s : Int)) ++ "-" ++
            toString ((e : Int)) ++ "/" ++ toString ((data.length : Int))),
          acceptRanges := some "bytes",
          contentLength := some ((e : Int) - (s : Int) + 1),
          contentType := some "video/mp4",
          body := (data.drop s).take (e - s + 1),
          jsonError := none }, 1⟩
    ∧ ((data.drop s).take (e - s + 1)).length = e - s + 1 := by
  refine ⟨streamHandler_two_numerals fs filename data sStr eStr s e hf hs he
    hse (by omega), ?_⟩
  rw [List.length_take, List.length_drop]
  omega

theorem C1_valid_range_witness :
    (fsLookup demoFs (resolvePath "v.mp4") = some demoData) ∧
    isNumeral "1" 1 ∧ isNumeral "3" 3 ∧ 1 ≤ 3 ∧ 3 < demoData.length ∧
    demoData.length ≤ 9007199254740991 ∧
    streamHandler demoFs "v.mp4" (some "bytes=1-3") =
      ⟨Outcome.success
        { status := 206, contentRange := some "bytes 1-3/5",
          acceptRanges := some "bytes", contentLength := some 3,
          contentType := some "video/mp4", body := [20, 30, 40],
          jsonError := none }, 1⟩ :=
  ⟨by decide, by decide, by decide, by decide, by decide, by decide, by
    have h := C1_valid_range demoFs "v.mp4" demoData "1" "3" 1 3 (by decide)
      (by decide) (by decide) (by decide) (by decide) (by decide)
    exact h.1⟩

/-- Claim C2 counterexample: for the 5-byte demo file, the request
`Range: bytes=5-105` (start = size, beyond EOF) does NOT return 416 with
`Content-Range: bytes */5`: the handler responds 206 with unclamped
headers, an empty body, and it does open a read stream over the file. -/
theorem C2_counterexample :
    streamHandler demoFs "v.mp4" (some "bytes=5-105") =
      ⟨Outcome.success
        { status := 206, contentRange := some "bytes 5-105/5",
          acceptRanges := some "bytes", contentLength := some 101,
          contentType := some "video/mp4", body := [], jsonError := none }, 1⟩ ∧
    respStatus (streamHandler demoFs "v.mp4" (some "bytes=5-105")) ≠ some 416 ∧
    (streamHandler demoFs "v.mp4" (some "bytes=5-105")).streamsOpened = 1 := by
  decide

/-- Claim C2 amended: for a file of size `size` and a header
`Range: bytes=<start>-<end>` with `size ≤ start ≤ end ≤ 2^53 - 1`
(`Number.MAX_SAFE_INTEGER`), the handler does not crash but also never
returns 416: it responds 206 with the unclamped
`Content-Range: bytes <start>-<end>/<size>`, `Content-Length =
end-start+1`, an empty body, and one read stream opened over the file.
(For offsets beyond `MAX_SAFE_INTEGER`, `createReadStream`'s
`validateInteger` throws instead and no status is written at all —
still never a 416.) -/
theorem C2_amended_behavior (fs : Fs) (filename : String) (data : FileData)
    (sStr eStr : String) (s e : Nat)
    (hf : fsLookup fs (resolvePath filename) = some data)
    (hs : isNumeral sStr s) (he : isNumeral eStr e)
    (hsize : data.length ≤ s) (hse : s ≤ e)
    (hemax : e ≤ 9007199254740991) :
    streamHandler fs filename (some ("bytes=" ++ sStr ++ "-" ++ eStr)) =
      ⟨Outcome.success
        { status := 206,
          contentRange := some ("bytes " ++ toString ((s : Int)) ++ "-" ++
            toString ((e : Int)) ++ "/" ++ toString ((data.length : Int))),
          acceptRanges := some "bytes",
          contentLength := some ((e : Int) - (s : Int) + 1),
          contentType := some "video/mp4",
          body := [], jsonError := none }, 1⟩ := by
  rw [streamHandler_two_numerals fs filename data sStr eStr s e hf hs he hse
    hemax, List.drop_eq_nil_of_le hsize, List.take_nil]

theorem C2_amended_behavior_witness :
    (fsLookup demoFs (resolvePath "v.mp4") = some demoData) ∧
    isNumeral "5" 5 ∧ isNumeral "105" 105 ∧
    demoData.length ≤ 5 ∧ 5 ≤ 105 ∧ 105 ≤ 9007199254740991 ∧
    streamHandler demoFs "v.mp4" (some "bytes=5-105") =
      ⟨Outcome.success
        { status := 206, contentRange := some "bytes 5-105/5",
          acceptRanges := some "bytes", contentLength := some 101,
          contentType := some "video/mp4", body := [], jsonError := none }, 1⟩ :=
  ⟨by decide, by decide, by decide, by decide, by decide, by decide, by
    have h := C2_amended_behavior demoFs "v.mp4" demoData "5" "105" 5 105
      (by decide) (by decide) (by decide) (by decide) (by decide) (by decide)
    exact h⟩

/-- Claim C4: a request with no Range header for a file of size `size`
returns status 200 with `Content-Length = size` and the whole file as
body. -/
theorem C4_no_range_header (fs : Fs) (filename : String) (data : FileData)
    (hf : fsLookup fs (resolvePath filename) = some data) :
    streamHandler fs filename none =
      ⟨Outcome.success
        { status := 200, contentRange := none, acceptRanges := none,
          contentLength := some ((data.length : Int)),
          contentType := some "video/mp4", body := data,
          jsonError := none }, 1⟩ := by
  simp [streamHandler, hf]

theorem C4_no_range_header_witness :
    (fsLookup demoFs (resolvePath "v.mp4") = some demoData) ∧
    streamHandler demoFs "v.mp4" none =
      ⟨Outcome.success
        { status := 200, contentRange := none, acceptRanges := none,
          contentLength := some 5, contentType := some "video/mp4",
          body := [10, 20, 30, 40, 50], jsonError := none }, 1⟩ :=
  ⟨by decide, by
    have h := C4_no_range_header demoFs "v.mp4" demoData (by decide)
    exact h⟩

/-- Claim C5: for `0 ≤ start < size`, a request with the open-ended header
`Range: bytes=<start>-` returns 206 covering `start` through the last byte:
`Content-Range = "bytes <start>-<size-1>/<size>"`, `Content-Length =
size - start`, and the body is the file's bytes from offset `start` on.
The hypothesis `data.length ≤ 9007199254740991` says the file's size is a
JavaScript safe integer — true of every file Node can stat exactly. -/
theorem C5_open_ended_range (fs : Fs) (filename : String) (data : FileData)
    (sStr : String) (s : Nat)
    (hf : fsLookup fs (resolvePath filename) = some data)
    (hs : isNumeral sStr s) (hlt : s < data.length)
    (hsz : data.length ≤ 9007199254740991) :
    streamHandler fs filename (some ("bytes=" ++ sStr ++ "-")) =
      ⟨Outcome.success
        { status := 206,
          contentRange := some ("bytes " ++ toString ((s : Int)) ++ "-" ++
            toString ((data.length : Int) - 1) ++ "/" ++
            toString ((data.length : Int))),
          acceptRanges := some "bytes",
          contentLength := some ((data.length : Int) - (s : Int)),
          contentType := some "video/mp4",
          body := data.drop s,
          jsonError := none }, 1⟩ := by
  rw [streamHandler_open_range fs filename data sStr s hf hs hlt hsz]
  have h1 : data.length - 1 - s + 1 = data.length - s := by omega
  have h2 : (data.drop s).take (data.length - s) = data.drop s :=
    List.take_of_length_le (by simp)
  have h3 : (data.length : Int) - 1 - (s : Int) + 1 =
      (data.length : Int) - (s : Int) := by ring
  rw [h1, h2, h3]

theorem C5_open_ended_range_witness :
    (fsLookup demoFs (resolvePath "v.mp4") = some demoData) ∧
    isNumeral "2" 2 ∧ 2 < demoData.length ∧
    demoData.length ≤ 9007199254740991 ∧
    streamHandler demoFs "v.mp4" (some "bytes=2-") =
      ⟨Outcome.success
        { status := 206, contentRange := some "bytes 2-4/5",
          acceptRanges := some "bytes", contentLength := some 3,
          contentType := some "video/mp4", body := [30, 40, 50],
          jsonError := none }, 1⟩ :=
  ⟨by decide, by decide, by decide, by decide, by
    have h := C5_open_ended_range demoFs "v.mp4" demoData "2" 2 (by decide)
      (by decide) (by decide) (by decide)
    exact h⟩

/-- Claim C3 (code bug): a suffix-range request `Range: bytes=-500` does
NOT return the last `min(500, size)` bytes. The handler computes
`parts = ["", "500"]`, `parseInt("") = NaN`, and
`fs.createReadStream(path, \x7bstart: NaN, end: 500\x7d)` throws before any
status is written: the request ends in a thrown error, no 206, no body,
no stream opened. -/
theorem C3_suffix_range_crashes :
    streamHandler demoFs "v.mp4" (some "bytes=-500") = ⟨Outcome.thrown, 0⟩ ∧
    respStatus (streamHandler demoFs "v.mp4" (some "bytes=-500")) = none ∧
    respBody (streamHandler demoFs "v.mp4" (some "bytes=-500")) = [] := by
  decide

/-- Claim C6 (code bug): the handler performs no sanitization of the
filename. The identifier `../secret.bin` resolves to `media/secret.bin`,
OUTSIDE the fixed videos directory `media/videos`, and when such a file
exists the handler serves its bytes with status 200 instead of rejecting
with 404. -/
theorem C6_path_traversal_served :
    resolvePath "../secret.bin" = ["media", "secret.bin"] ∧
    fsLookup outsideFs (resolvePath "../secret.bin") = some [9, 9, 9] ∧
    streamHandler outsideFs "../secret.bin" none =
      ⟨Outcome.success
        { status := 200, contentRange := none, acceptRanges := none,
          contentLength := some 3, contentType := some "video/mp4",
          body := [9, 9, 9], jsonError := none }, 1⟩ := by
  decide

/-- Claim C7: for a filename whose resolved path is not an existing file,
the handler returns 404 with JSON body `{"error": "Video not found"}`
(for ANY Range header), and no read stream over the file is opened. -/
theorem C7_not_found (fs : Fs) (filename : String)
    (rangeHeader : Option String)
    (hf : fsLookup fs (resolvePath filename) = none) :
    streamHandler fs filename rangeHeader =
      ⟨Outcome.success notFoundResponse, 0⟩ ∧
    notFoundResponse.status = 404 ∧
    notFoundResponse.jsonError = some "Video not found" ∧
    (streamHandler fs filename rangeHeader).streamsOpened = 0 := by
  have h : streamHandler fs filename rangeHeader =
      ⟨Outcome.success notFoundResponse, 0⟩ := by
    simp [streamHandler, hf]
  exact ⟨h, rfl, rfl, by rw [h]⟩

theorem C7_not_found_witness :
    (fsLookup demoFs (resolvePath "nope.mp4") = none) ∧
    (streamHandler demoFs "nope.mp4" (some "bytes=0-1") =
      ⟨Outcome.success notFoundResponse, 0⟩ ∧
    notFoundResponse.status = 404 ∧
    notFoundResponse.jsonError = some "Video not found" ∧
    (streamHandler demoFs "nope.mp4" (some "bytes=0-1")).streamsOpened = 0) :=
  ⟨by decide, C7_not_found demoFs "nope.mp4" (some "bytes=0-1") (by decide)⟩

/-- Claim C8: for a file of at least 2000 bytes, the bodies of the two
requests `Range: bytes=0-999` and `Range: bytes=1000-1999` concatenate to
exactly bytes 0 through 1999 of the file. -/
theorem C8_sequential_chunks (fs : Fs) (filename : String) (data : FileData)
    (hf : fsLookup fs (resolvePath filename) = some data)
    (hlen : 2000 ≤ data.length) :
    respBody (streamHandler fs filename (some "bytes=0-999")) ++
      respBody (streamHandler fs filename (some "bytes=1000-1999")) =
      data.take 2000 ∧
    (data.take 2000).length = 2000 := by
  have h1 := streamHandler_two_numerals fs filename data "0" "999" 0 999 hf
    (by decide) (by decide) (by decide) (by decide)
  have h2 := streamHandler_two_numerals fs filename data "1000" "1999"
    1000 1999 hf (by decide) (by decide) (by decide) (by decide)
  rw [show ("bytes=0-999" : String) = "bytes=" ++ "0" ++ "-" ++ "999" from rfl,
    show ("bytes=1000-1999" : String) =
      "bytes=" ++ "1000" ++ "-" ++ "1999" from rfl, h1, h2]
  constructor
  · simp only [respBody, List.drop_zero]
    norm_num
    rw [show (2000 : Nat) = 1000 + 1000 from rfl, List.take_add]
  · rw [List.length_take]
    omega

theorem C8_sequential_chunks_witness :
    (fsLookup bigFs (resolvePath "big.mp4") = some bigData) ∧
    2000 ≤ bigData.length ∧
    (respBody (streamHandler bigFs "big.mp4" (some "bytes=0-999")) ++
      respBody (streamHandler bigFs "big.mp4" (some "bytes=1000-1999")) =
      bigData.take 2000 ∧
    (bigData.take 2000).length = 2000) :=
  ⟨by rfl, by
    show 2000 ≤ (List.replicate 2000 7).length
    rw [List.length_replicate],
    C8_sequential_chunks bigFs "big.mp4" bigData (by rfl) (by
      show 2000 ≤ (List.replicate 2000 7).length
      rw [List.length_replicate])⟩

/-- Claim C9 (implicit): every status the handler writes is 200, 206 or
404; no code path of the handler produces a 416, whatever the Range header
(paths where `fs.createReadStream` throws write no status at all). -/
theorem C9_status_values (fs : Fs) (filename : String)
    (rangeHeader : Option String) (r : Response) (k : Nat)
    (h : streamHandler fs filename rangeHeader = ⟨Outcome.success r, k⟩) :
    (r.status = 200 ∨ r.status = 206 ∨ r.status = 404) ∧ r.status ≠ 416 := by
  have hstat : r.status = 200 ∨ r.status = 206 ∨ r.status = 404 := by
    rcases hfl : fsLookup fs (resolvePath filename) with _ | data
    · simp only [streamHandler, hfl] at h
      simp only [HandlerResult.mk.injEq, Outcome.success.injEq] at h
      obtain ⟨h1, -⟩ := h
      subst h1
      right; right; rfl
    · rcases rangeHeader with _ | range
      · simp only [streamHandler, hfl] at h
        simp only [HandlerResult.mk.injEq, Outcome.success.injEq] at h
        obtain ⟨h1, -⟩ := h
        subst h1
        left; rfl
      · simp only [streamHandler, hfl] at h
        split at h
        · split at h
          · simp only [HandlerResult.mk.injEq, Outcome.success.injEq] at h
            obtain ⟨h1, -⟩ := h
            subst h1
            right; left; rfl
          · simp at h
        · simp at h
  refine ⟨hstat, ?_⟩
  rcases hstat with h' | h' | h' <;> rw [h'] <;> decide

theorem C9_status_values_witness :
    streamHandler demoFs "v.mp4" none =
      ⟨Outcome.success demoOkResponse, 1⟩ ∧
    ((demoOkResponse.status = 200 ∨ demoOkResponse.status = 206 ∨
      demoOkResponse.status = 404) ∧ demoOkResponse.status ≠ 416) :=
  ⟨by decide, C9_status_values demoFs "v.mp4" none demoOkResponse 1 (by decide)⟩

/-- Claim C10 counterexample: the claim quantifies over EVERY `b` with
`size ≤ b`, but for `b` above `Number.MAX_SAFE_INTEGER` the handler does
not respond 206 at all: on the 5-byte demo file, `Range:
bytes=1-99999999999999999999` (an instance of the claim's
`0 ≤ a < size ≤ b`) makes `createReadStream`'s `validateInteger` throw
`ERR_OUT_OF_RANGE` before `writeHead` — no status is written and no
stream is opened. (The real `parseInt` rounds that numeral to the double
`1e20`, which still exceeds `MAX_SAFE_INTEGER`, so the program throws
exactly as the model does.) -/
theorem C10_counterexample :
    streamHandler demoFs "v.mp4" (some "bytes=1-99999999999999999999") =
      ⟨Outcome.thrown, 0⟩ ∧
    respStatus
      (streamHandler demoFs "v.mp4" (some "bytes=1-99999999999999999999")) =
      none := by
  decide

/-- Claim C10 amended: for `Range: bytes=<a>-<b>` with
`0 ≤ a < size ≤ b ≤ 2^53 - 1` (`Number.MAX_SAFE_INTEGER`, the largest
end offset `createReadStream` accepts), the handler responds 206 with the
UNCLAMPED `Content-Range: bytes <a>-<b>/<size>` and `Content-Length =
b-a+1`, while the body only holds the `size - a` bytes the stream can
yield, strictly fewer than the declared Content-Length; for larger `b`
the handler throws and writes no status. -/
theorem C10_unclamped_end (fs : Fs) (filename : String) (data : FileData)
    (sStr eStr : String) (a b : Nat)
    (hf : fsLookup fs (resolvePath filename) = some data)
    (hs : isNumeral sStr a) (he : isNumeral eStr b)
    (ha : a < data.length) (hb : data.length ≤ b)
    (hbmax : b ≤ 9007199254740991) :
    streamHandler fs filename (some ("bytes=" ++ sStr ++ "-" ++ eStr)) =
      ⟨Outcome.success
        { status := 206,
          contentRange := some ("bytes " ++ toString ((a : Int)) ++ "-" ++
            toString ((b : Int)) ++ "/" ++ toString ((data.length : Int))),
          acceptRanges := some "bytes",
          contentLength := some ((b : Int) - (a : Int) + 1),
          contentType := some "video/mp4",
          body := data.drop a,
          jsonError := none }, 1⟩
    ∧ (data.drop a).length = data.length - a
    ∧ ((data.drop a).length : Int) < (b : Int) - (a : Int) + 1 := by
  have hab : a ≤ b := le_trans (le_of_lt ha) hb
  have h := streamHandler_two_numerals fs filename data sStr eStr a b hf hs he
    hab hbmax
  have hbody : (data.drop a).take (b - a + 1) = data.drop a :=
    List.take_of_length_le (by rw [List.length_drop]; omega)
  refine ⟨by rw [h, hbody], List.length_drop .., ?_⟩
  rw [List.length_drop]
  omega

theorem C10_unclamped_end_witness :
    (fsLookup demoFs (resolvePath "v.mp4") = some demoData) ∧
    isNumeral "1" 1 ∧ isNumeral "1000" 1000 ∧
    1 < demoData.length ∧ demoData.length ≤ 1000 ∧
    1000 ≤ 9007199254740991 ∧
    (streamHandler demoFs "v.mp4" (some "bytes=1-1000") =
      ⟨Outcome.success
        { status := 206, contentRange := some "bytes 1-1000/5",
          acceptRanges := some "bytes", contentLength := some 1000,
          contentType := some "video/mp4", body := [20, 30, 40, 50],
          jsonError := none }, 1⟩
    ∧ (demoData.drop 1).length = demoData.length - 1
    ∧ ((demoData.drop 1).length : Int) < (1000 : Int) - (1 : Int) + 1) :=
  ⟨by decide, by decide, by decide, by decide, by decide, by decide, by
    have h := C10_unclamped_end demoFs "v.mp4" demoData "1" "1000" 1 1000
      (by decide) (by decide) (by decide) (by decide) (by decide) (by decide)
    exact h⟩

end HomeStream
